import Mathlib

/-!
Verification development for the image-link block component
(src/blocks/image-link/image-link.js).

The component is a deterministic, synchronous DOM-to-DOM transformation:
three functions, createResponsivePicture, createLink and decorate,
rewrite a block of authored rows into a responsive picture element,
optionally wrapped in an anchor.

We shallowly embed the DOM fragment the component manipulates as a pure
tree type: a node is either a text node or an element with a tag name,
an attribute list and children.  DOM properties the source reads or
writes (img.src, img.alt, source.media, source.srcset, a.href, a.target,
a.title, a.rel, img.loading) reflect the attribute of the same name, so
properties are modelled as attribute access.  querySelector with a tag
selector is first-match preorder search over the descendants,
textContent is the concatenation of all text descendants, cloneNode
(deep) is the identity on the pure tree value, and setting textContent
to a non-empty string replaces the children with a single text node.
A block is represented by its list of child rows; decorate, which
mutates the children of the block in place, becomes a function from the old
child list to the new one.
-/

/-- A DOM node: a text node, or an element with tag, attributes and
children. -/
inductive Node : Type where
  | text : String → Node
  | elem : String → List (String × String) → List Node → Node

namespace Node

/-- Attribute lookup: first binding of the given name, if any.  Mirrors
getAttribute returning null when the attribute is absent. -/
def getAttr? (n : Node) (name : String) : Option String :=
  match n with
  | .text _ => none
  | .elem _ attrs _ => attrs.lookup name

/-- Reflected string property for an attribute: the value of the attribute,
or the empty string when absent (the DOM default for reflected string
properties such as img.src, img.alt, a.title). -/
def getAttr (n : Node) (name : String) : String :=
  (n.getAttr? name).getD ""

/-- Replace the first binding of a name in an attribute list, or append
a new binding at the end. -/
def setAttrList (attrs : List (String × String)) (name val : String) :
    List (String × String) :=
  match attrs with
  | [] => [(name, val)]
  | (k, v) :: rest =>
      if k = name then (k, val) :: rest else (k, v) :: setAttrList rest name val

/-- Set an attribute on a node (no effect on a text node).  Models
assignment to a reflected string property. -/
def setAttr (n : Node) (name val : String) : Node :=
  match n with
  | .text s => .text s
  | .elem t attrs c => .elem t (setAttrList attrs name val) c

/-- The children of a node (a text node has none). -/
def children : Node → List Node
  | .text _ => []
  | .elem _ _ c => c

/-- The tag of an element, or the empty string for a text node. -/
def tag : Node → String
  | .text _ => ""
  | .elem t _ _ => t

/-- Append a child at the end of the children of a node (appendChild). -/
def appendChild (n c : Node) : Node :=
  match n with
  | .text s => .text s
  | .elem t attrs cs => .elem t attrs (cs ++ [c])

mutual

/-- First element with the given tag in preorder, the node itself
included. -/
def findFirst (tagName : String) : Node → Option Node
  | .text _ => none
  | .elem t a c =>
      if t = tagName then some (.elem t a c) else findFirstList tagName c

/-- First element with the given tag across a list of sibling subtrees,
in document order. -/
def findFirstList (tagName : String) : List Node → Option Node
  | [] => none
  | n :: ns =>
      match findFirst tagName n with
      | some m => some m
      | none => findFirstList tagName ns

end

/-- querySelector with a tag-name selector: first matching descendant
in document order (the node itself is not a candidate). -/
def querySelector (tagName : String) : Node → Option Node
  | .text _ => none
  | .elem _ _ c => findFirstList tagName c

mutual

/-- textContent of a node: concatenation of all descendant text. -/
def textContent : Node → String
  | .text s => s
  | .elem _ _ c => textContentList c

/-- textContent of a list of sibling subtrees, in order. -/
def textContentList : List Node → String
  | [] => ""
  | n :: ns => textContent n ++ textContentList ns

end

mutual

/-- Number of elements with the given tag in a subtree, the root
included. -/
def countElems (tagName : String) : Node → Nat
  | .text _ => 0
  | .elem t _ c =>
      (if t = tagName then 1 else 0) + countElemsList tagName c

/-- Number of elements with the given tag across a list of sibling
subtrees. -/
def countElemsList (tagName : String) : List Node → Nat
  | [] => 0
  | n :: ns => countElems tagName n + countElemsList tagName ns

end

end Node

/-- JavaScript String.prototype.trim, modelled executably: drop leading
and trailing whitespace characters. -/
def jsTrim (s : String) : String :=
  String.mk
    (((s.data.dropWhile Char.isWhitespace).reverse.dropWhile
      Char.isWhitespace).reverse)

/-- JavaScript || on strings: the first operand if truthy (non-empty),
else the second. -/
def jsOr (a b : String) : String := if a = "" then b else a

/-- JavaScript || on nullable element references: the first operand if
non-null, else the second. -/
def jsOrOpt (a b : Option Node) : Option Node :=
  match a with
  | some x => some x
  | none => b

/-- createResponsivePicture from the source: builds a picture element
from the optional desktop and mobile picture containers and the alt
text.  Optional chaining on the containers becomes Option.bind; the
alt argument, possibly undefined in the source, is passed as a string
(undefined and the empty string are interchangeable in every use,
since alt only occurs as the left operand of ||). -/
def createResponsivePicture (desktopPicture mobilePicture : Option Node)
    (alt : String) : Node :=
  let desktopImg := desktopPicture.bind (Node.querySelector "img")
  let mobileImg := mobilePicture.bind (Node.querySelector "img")
  let fallbackImg := jsOrOpt desktopImg mobileImg
  match fallbackImg with
  | none => Node.elem "picture" [] []
  | some fb =>
      match desktopImg, mobileImg with
      | some dImg, some mImg =>
          if dImg.getAttr "src" ≠ mImg.getAttr "src" then
            Node.elem "picture" []
              [ ((Node.elem "source" [] []).setAttr "media"
                  "(max-width: 767px)").setAttr "srcset" (mImg.getAttr "src"),
                ((Node.elem "source" [] []).setAttr "media"
                  "(min-width: 768px)").setAttr "srcset" (dImg.getAttr "src"),
                ((((Node.elem "img" [] []).setAttr "src"
                    (dImg.getAttr "src")).setAttr "alt"
                    (jsOr alt (jsOr (dImg.getAttr "alt") ""))).setAttr
                    "loading" "lazy") ]
          else
            Node.elem "picture" []
              [ ((fb.setAttr "alt"
                  (jsOr alt (jsOr (fb.getAttr "alt") ""))).setAttr
                  "loading" "lazy") ]
      | _, _ =>
          Node.elem "picture" []
            [ ((fb.setAttr "alt"
                (jsOr alt (jsOr (fb.getAttr "alt") ""))).setAttr
                "loading" "lazy") ]

/-- createLink from the source: an anchor with href and target always
set, title set only when non-empty, rel set to noopener noreferrer
exactly when the target is the new-browsing-context value, and the
picture appended as its child. -/
def createLink (href title target : String) (picture : Node) : Node :=
  let link := Node.elem "a" [] []
  let link := link.setAttr "href" href
  let link := link.setAttr "target" target
  let link := if title ≠ "" then link.setAttr "title" title else link
  let link := if target = "_blank" then
      link.setAttr "rel" "noopener noreferrer" else link
  link.appendChild picture

/-- The inline error text decorate renders when no image is found. -/
def errorMessage : String := "Image Link: Please add at least one image"

/-- decorate from the source, as a function from the child rows of the block
to its new child rows.  Each optional-chained extraction becomes an
Option operation; rows[2]?.textContent.trim(), undefined when row 2 is
absent, is passed on as the empty string (interchangeable with
undefined in its only use, the left operand of ||); assigning a
non-empty string to block.textContent yields a single text child. -/
def decorate (rows : List Node) : List Node :=
  let desktopPicture := (rows.get? 0).bind (Node.querySelector "picture")
  let mobilePicture := (rows.get? 1).bind (Node.querySelector "picture")
  let alt := match rows.get? 2 with
    | some r => jsTrim r.textContent
    | none => ""
  let linkElement := (rows.get? 3).bind (Node.querySelector "a")
  let linkTitle := jsOr (match linkElement with
    | some l => l.getAttr "title"
    | none => "") ""
  let linkTarget := jsOr (match rows.get? 4 with
    | some r => jsTrim r.textContent
    | none => "") "_self"
  match desktopPicture, mobilePicture with
  | none, none => [Node.text errorMessage]
  | _, _ =>
    let picture := createResponsivePicture desktopPicture mobilePicture alt
    match linkElement with
    | some l =>
        if l.getAttr "href" ≠ "" then
          [createLink (l.getAttr "href") linkTitle linkTarget picture]
        else
          [picture]
    | none => [picture]

/-! ### Extraction helpers

Named forms of the expressions decorate binds from the rows of the block,
used to state theorems about decorate without repeating them. -/

/-- The desktop picture container decorate extracts from row 0. -/
def extractDesktop (rows : List Node) : Option Node :=
  (rows.get? 0).bind (Node.querySelector "picture")

/-- The mobile picture container decorate extracts from row 1. -/
def extractMobile (rows : List Node) : Option Node :=
  (rows.get? 1).bind (Node.querySelector "picture")

/-- The alt text decorate extracts from row 2 (empty when the row is
absent). -/
def extractAlt (rows : List Node) : String :=
  match rows.get? 2 with
  | some r => jsTrim r.textContent
  | none => ""

/-- The anchor decorate extracts from row 3. -/
def extractLink (rows : List Node) : Option Node :=
  (rows.get? 3).bind (Node.querySelector "a")

/-- The link target decorate extracts from row 4, defaulting to the
same-window value. -/
def extractTarget (rows : List Node) : String :=
  jsOr (match rows.get? 4 with
    | some r => jsTrim r.textContent
    | none => "") "_self"

/-- The responsive picture decorate builds from the extracted rows. -/
def builtPicture (rows : List Node) : Node :=
  createResponsivePicture (extractDesktop rows) (extractMobile rows)
    (extractAlt rows)

/-- C1: with both images present and differing URLs, the picture is
exactly the narrow source on the mobile URL, the wide source on the
desktop URL, and a lazy fallback image on the desktop URL whose alt is
the override if non-empty, else the own alt of the desktop image, else
empty. -/
theorem c1_both_sources (dp mp : Option Node) (alt : String) (d m : Node)
    (hd : dp.bind (Node.querySelector "img") = some d)
    (hm : mp.bind (Node.querySelector "img") = some m)
    (hne : d.getAttr "src" ≠ m.getAttr "src") :
    createResponsivePicture dp mp alt =
      Node.elem "picture" []
        [ Node.elem "source"
            [("media", "(max-width: 767px)"), ("srcset", m.getAttr "src")] [],
          Node.elem "source"
            [("media", "(min-width: 768px)"), ("srcset", d.getAttr "src")] [],
          Node.elem "img"
            [("src", d.getAttr "src"),
             ("alt", if alt ≠ "" then alt
               else if d.getAttr "alt" ≠ "" then d.getAttr "alt" else ""),
             ("loading", "lazy")] [] ] := by
  simp only [createResponsivePicture, hd, hm, jsOrOpt]
  rw [if_pos hne]
  simp [Node.setAttr, Node.setAttrList, jsOr]

/-- With no image found in either container, createResponsivePicture
returns an empty picture element. -/
theorem createResponsivePicture_none_none (dp mp : Option Node) (alt : String)
    (hd : dp.bind (Node.querySelector "img") = none)
    (hm : mp.bind (Node.querySelector "img") = none) :
    createResponsivePicture dp mp alt = Node.elem "picture" [] [] := by
  simp [createResponsivePicture, hd, hm, jsOrOpt]

/-- C8: with no image found in either container, an empty picture
element is returned and no error is signalled (the function is total
and returns an ordinary element). -/
theorem c8_no_sources (dp mp : Option Node) (alt : String)
    (hd : dp.bind (Node.querySelector "img") = none)
    (hm : mp.bind (Node.querySelector "img") = none) :
    createResponsivePicture dp mp alt = Node.elem "picture" [] [] :=
  createResponsivePicture_none_none dp mp alt hd hm

/-- C2: with exactly one image present, or both present with identical
URLs, the picture is exactly one lazy clone of the resolved image
(desktop preferred) with its alt overwritten, and no conditional
sources. -/
theorem c2_single_source (dp mp : Option Node) (alt : String) (fb : Node)
    (hfb : jsOrOpt (dp.bind (Node.querySelector "img"))
        (mp.bind (Node.querySelector "img")) = some fb)
    (hsame : ∀ d m, dp.bind (Node.querySelector "img") = some d →
        mp.bind (Node.querySelector "img") = some m →
        d.getAttr "src" = m.getAttr "src")
    (hleaf : ∃ attrs, fb = Node.elem "img" attrs []) :
    createResponsivePicture dp mp alt =
      Node.elem "picture" []
        [ (fb.setAttr "alt" (if alt ≠ "" then alt
             else if fb.getAttr "alt" ≠ "" then fb.getAttr "alt" else "")).setAttr
            "loading" "lazy" ]
    ∧ Node.countElems "img" (createResponsivePicture dp mp alt) = 1
    ∧ Node.countElems "source" (createResponsivePicture dp mp alt) = 0 := by
  obtain ⟨attrs, rfl⟩ := hleaf
  cases hdi : dp.bind (Node.querySelector "img") with
  | none =>
    cases hmi : mp.bind (Node.querySelector "img") with
    | none => simp [hdi, hmi, jsOrOpt] at hfb
    | some m =>
      rw [hdi, hmi] at hfb
      simp [jsOrOpt] at hfb
      subst hfb
      simp only [createResponsivePicture, hdi, hmi, jsOrOpt]
      refine ⟨by simp [jsOr], ?_, ?_⟩ <;>
        simp [Node.setAttr, Node.countElems, Node.countElemsList]
  | some d =>
    cases hmi : mp.bind (Node.querySelector "img") with
    | none =>
      rw [hdi, hmi] at hfb
      simp [jsOrOpt] at hfb
      subst hfb
      simp only [createResponsivePicture, hdi, hmi, jsOrOpt]
      refine ⟨by simp [jsOr], ?_, ?_⟩ <;>
        simp [Node.setAttr, Node.countElems, Node.countElemsList]
    | some m =>
      rw [hdi, hmi] at hfb
      simp [jsOrOpt] at hfb
      subst hfb
      have hsrc := hsame _ _ hdi hmi
      simp only [createResponsivePicture, hdi, hmi, jsOrOpt]
      rw [if_neg (by simp [hsrc])]
      refine ⟨by simp [jsOr], ?_, ?_⟩ <;>
        simp [Node.setAttr, Node.countElems, Node.countElemsList]

/-- C4: the produced anchor carries rel = noopener noreferrer exactly
when the target is the new-browsing-context value; for any other
target the rel attribute is absent. -/
theorem c4_rel_iff_blank (href title target : String) (p : Node) :
    ((createLink href title target p).getAttr? "rel" =
        some "noopener noreferrer" ↔ target = "_blank")
    ∧ (target ≠ "_blank" →
        (createLink href title target p).getAttr? "rel" = none) := by
  by_cases ht : title = "" <;> by_cases htg : target = "_blank" <;>
    simp [createLink, ht, htg, Node.setAttr, Node.setAttrList,
      Node.appendChild, Node.getAttr?, List.lookup]

/-- C6: the produced anchor always has href and target set, has title
set only when the title argument is non-empty, and has the wrapped
content as its sole child. -/
theorem c6_link_shape (href title target : String) (p : Node) :
    (createLink href title target p).getAttr? "href" = some href
    ∧ (createLink href title target p).getAttr? "target" = some target
    ∧ (title ≠ "" →
        (createLink href title target p).getAttr? "title" = some title)
    ∧ (title = "" →
        (createLink href title target p).getAttr? "title" = none)
    ∧ (createLink href title target p).children = [p] := by
  by_cases ht : title = "" <;> by_cases htg : target = "_blank" <;>
    simp [createLink, ht, htg, Node.setAttr, Node.setAttrList,
      Node.appendChild, Node.getAttr?, Node.children, List.lookup]

/-- createResponsivePicture always returns a picture element with no
attributes, whatever its inputs. -/
theorem createResponsivePicture_isPicture (dp mp : Option Node) (alt : String) :
    ∃ cs, createResponsivePicture dp mp alt = Node.elem "picture" [] cs := by
  simp only [createResponsivePicture]
  cases dp.bind (Node.querySelector "img") <;>
    cases mp.bind (Node.querySelector "img") <;>
    simp only [jsOrOpt]
  · exact ⟨_, rfl⟩
  · exact ⟨_, rfl⟩
  · exact ⟨_, rfl⟩
  · split
    · exact ⟨_, rfl⟩
    · exact ⟨_, rfl⟩

/-- createLink always returns an anchor whose sole child is the wrapped
content. -/
theorem createLink_isAnchor (href title target : String) (p : Node) :
    ∃ as, createLink href title target p = Node.elem "a" as [p] := by
  simp only [createLink]
  split <;> split <;> exact ⟨_, rfl⟩

/-- Branch normal form of decorate, phrased with the extraction
helpers: the error text when both picture containers are missing, else
the built picture, wrapped in the link exactly when an anchor with a
non-empty href was extracted. -/
def decorateBranches (rows : List Node) : List Node :=
  match extractDesktop rows, extractMobile rows with
  | none, none => [Node.text errorMessage]
  | _, _ =>
    match extractLink rows with
    | some l =>
        if l.getAttr "href" ≠ "" then
          [createLink (l.getAttr "href") (jsOr (l.getAttr "title") "")
            (extractTarget rows) (builtPicture rows)]
        else [builtPicture rows]
    | none => [builtPicture rows]

/-- decorate agrees with its branch normal form. -/
theorem decorate_eq_branches (rows : List Node) :
    decorate rows = decorateBranches rows := by
  simp only [decorate, decorateBranches, extractDesktop, extractMobile,
    extractAlt, extractLink, extractTarget, builtPicture]
  cases (rows.get? 0).bind (Node.querySelector "picture") <;>
    cases (rows.get? 1).bind (Node.querySelector "picture") <;>
    [rfl; skip; skip; skip] <;>
    cases (rows.get? 3).bind (Node.querySelector "a") <;> rfl

/-- The only states decorate can leave a block in: the inline error
text, a bare picture element, or a picture element wrapped in an
anchor. -/
def validOutcome (ns : List Node) : Prop :=
  ns = [Node.text errorMessage]
  ∨ (∃ cs, ns = [Node.elem "picture" [] cs])
  ∨ (∃ as cs, ns = [Node.elem "a" as [Node.elem "picture" [] cs]])

/-- C9: decorate is a total function and always leaves the block in a
valid rendered state: error text, a picture, or a link-wrapped
picture. -/
theorem c9_always_valid (rows : List Node) : validOutcome (decorate rows) := by
  obtain ⟨cs, hcs⟩ := createResponsivePicture_isPicture (extractDesktop rows)
    (extractMobile rows) (extractAlt rows)
  have hpic : builtPicture rows = Node.elem "picture" [] cs := hcs
  have hbare : validOutcome [builtPicture rows] :=
    Or.inr (Or.inl ⟨cs, by rw [hpic]⟩)
  have hwrap : ∀ l : Node, validOutcome [createLink (l.getAttr "href")
      (jsOr (l.getAttr "title") "") (extractTarget rows)
      (builtPicture rows)] := by
    intro l
    obtain ⟨as, has⟩ := createLink_isAnchor (l.getAttr "href")
      (jsOr (l.getAttr "title") "") (extractTarget rows)
      (Node.elem "picture" [] cs)
    exact Or.inr (Or.inr ⟨as, cs, by rw [hpic, has]⟩)
  rw [decorate_eq_branches, decorateBranches]
  cases extractDesktop rows <;> cases extractMobile rows <;>
    [exact Or.inl rfl; skip; skip; skip] <;>
    (cases extractLink rows with
     | none => exact hbare
     | some l =>
        show validOutcome (if l.getAttr "href" ≠ "" then
          [createLink (l.getAttr "href") (jsOr (l.getAttr "title") "")
            (extractTarget rows) (builtPicture rows)]
          else [builtPicture rows])
        by_cases hh : l.getAttr "href" = ""
        · rw [if_neg (not_not_intro hh)]; exact hbare
        · rw [if_pos hh]; exact hwrap l)

/-- C3: when neither picture container is found, decorate replaces the
block content with the error text alone; the block then holds no image
and no anchor elements, and decorate, a total function, returns
normally. -/
theorem c3_error_replacement (rows : List Node)
    (h0 : extractDesktop rows = none) (h1 : extractMobile rows = none) :
    decorate rows = [Node.text errorMessage]
    ∧ Node.countElemsList "img" (decorate rows) = 0
    ∧ Node.countElemsList "a" (decorate rows) = 0 := by
  have hd : decorate rows = [Node.text errorMessage] := by
    rw [decorate_eq_branches]
    unfold decorateBranches
    rw [h0, h1]
  refine ⟨hd, ?_, ?_⟩ <;>
    rw [hd] <;> simp [Node.countElemsList, Node.countElems]

/-- C5: given at least one picture container, decorate wraps the built
picture in an anchor precisely when row 3 yielded an anchor with a
non-empty href; an absent anchor or an empty href appends the picture
directly. -/
theorem c5_wrap_iff_nonempty_href (rows : List Node)
    (himg : ¬(extractDesktop rows = none ∧ extractMobile rows = none)) :
    (∀ l, extractLink rows = some l →
      (l.getAttr "href" ≠ "" →
        decorate rows = [createLink (l.getAttr "href")
          (jsOr (l.getAttr "title") "") (extractTarget rows)
          (builtPicture rows)])
      ∧ (l.getAttr "href" = "" → decorate rows = [builtPicture rows]))
    ∧ (extractLink rows = none → decorate rows = [builtPicture rows]) := by
  rw [decorate_eq_branches]
  refine ⟨?_, ?_⟩
  · intro l hl
    refine ⟨?_, ?_⟩
    · intro hh
      unfold decorateBranches
      rw [hl]
      rcases h0 : extractDesktop rows with _ | dp <;>
        rcases h1 : extractMobile rows with _ | mp
      · exact absurd ⟨h0, h1⟩ himg
      all_goals
        show (if l.getAttr "href" ≠ "" then
            [createLink (l.getAttr "href") (jsOr (l.getAttr "title") "")
              (extractTarget rows) (builtPicture rows)]
          else [builtPicture rows]) = _
        rw [if_pos hh]
    · intro hh
      unfold decorateBranches
      rw [hl]
      rcases h0 : extractDesktop rows with _ | dp <;>
        rcases h1 : extractMobile rows with _ | mp
      · exact absurd ⟨h0, h1⟩ himg
      all_goals
        show (if l.getAttr "href" ≠ "" then
            [createLink (l.getAttr "href") (jsOr (l.getAttr "title") "")
              (extractTarget rows) (builtPicture rows)]
          else [builtPicture rows]) = _
        rw [if_neg (not_not_intro hh)]
  · intro hl
    unfold decorateBranches
    rw [hl]
    rcases h0 : extractDesktop rows with _ | dp <;>
      rcases h1 : extractMobile rows with _ | mp
    · exact absurd ⟨h0, h1⟩ himg
    all_goals rfl

/-- C10: a picture container with no inner image passes the validation
gate — no error text is rendered — and the block ends up holding a
single empty picture element, whether the empty container sits in row 0
with row 1 absent or in row 1 with row 0 lacking a container. -/
theorem c10_empty_container_passes (r pc : Node)
    (hpc : Node.querySelector "picture" r = some pc)
    (hnoimg : Node.querySelector "img" pc = none) :
    (decorate [r] = [Node.elem "picture" [] []]
      ∧ decorate [r] ≠ [Node.text errorMessage])
    ∧ ∀ r0, Node.querySelector "picture" r0 = none →
        (decorate [r0, r] = [Node.elem "picture" [] []]
          ∧ decorate [r0, r] ≠ [Node.text errorMessage]) := by
  refine ⟨?_, ?_⟩
  · have e0 : extractDesktop [r] = some pc := hpc
    have e1 : extractMobile [r] = none := rfl
    have e3 : extractLink [r] = none := rfl
    have hdimg : (extractDesktop [r]).bind (Node.querySelector "img") = none := by
      rw [e0]; exact hnoimg
    have hmimg : (extractMobile [r]).bind (Node.querySelector "img") = none := rfl
    have hb : builtPicture [r] = Node.elem "picture" [] [] :=
      createResponsivePicture_none_none _ _ _ hdimg hmimg
    have hmain : decorate [r] = [Node.elem "picture" [] []] := by
      rw [decorate_eq_branches]
      unfold decorateBranches
      rw [e0, e1, e3]
      show [builtPicture [r]] = _
      rw [hb]
    exact ⟨hmain, by rw [hmain]; simp⟩
  · intro r0 hr0
    have e0 : extractDesktop [r0, r] = none := hr0
    have e1 : extractMobile [r0, r] = some pc := hpc
    have e3 : extractLink [r0, r] = none := rfl
    have hdimg : (extractDesktop [r0, r]).bind (Node.querySelector "img") = none := by
      rw [e0]; rfl
    have hmimg : (extractMobile [r0, r]).bind (Node.querySelector "img") = none := by
      rw [e1]; exact hnoimg
    have hb : builtPicture [r0, r] = Node.elem "picture" [] [] :=
      createResponsivePicture_none_none _ _ _ hdimg hmimg
    have hmain : decorate [r0, r] = [Node.elem "picture" [] []] := by
      rw [decorate_eq_branches]
      unfold decorateBranches
      rw [e0, e1, e3]
      show [builtPicture [r0, r]] = _
      rw [hb]
    exact ⟨hmain, by rw [hmain]; simp⟩

/-! ### A store model for the mutation claim

The pure tree model cannot express "does not mutate its inputs", so we
also embed createResponsivePicture over an explicit node store: nodes
live at numeric ids, createElement and cloneNode allocate fresh ids,
and property assignment writes through an id.  In the source the nodes
appended to the picture are always freshly created or cloned and are
never mutated after being appended, and the images found by
querySelector are only read from or cloned, so child links and query
results may soundly carry node values.  The frame theorem then states
that every node present in the store before the call is unchanged
after it. -/

/-- A node store: bindings from ids to node values, plus the next
fresh id. -/
structure Store where
  entries : List (Nat × Node)
  next : Nat

/-- Lookup in an id-to-node binding list (first binding wins). -/
def lookupId (es : List (Nat × Node)) (id : Nat) : Option Node :=
  match es with
  | [] => none
  | (k, v) :: rest => if k = id then some v else lookupId rest id

namespace Store

/-- The node currently bound to an id, if any. -/
def find? (σ : Store) (id : Nat) : Option Node :=
  lookupId σ.entries id

/-- Replace the first binding of an id (no effect when the id is
unbound). -/
def writeEntries (es : List (Nat × Node)) (id : Nat) (n : Node) :
    List (Nat × Node) :=
  match es with
  | [] => []
  | (k, v) :: rest =>
      if k = id then (k, n) :: rest else (k, v) :: writeEntries rest id n

/-- Overwrite the node bound to an id. -/
def write (σ : Store) (id : Nat) (n : Node) : Store :=
  ⟨writeEntries σ.entries id n, σ.next⟩

/-- document.createElement: bind a fresh id to an empty element. -/
def createElement (σ : Store) (tagName : String) : Nat × Store :=
  (σ.next, ⟨(σ.next, Node.elem tagName [] []) :: σ.entries, σ.next + 1⟩)

/-- cloneNode(true): bind a fresh id to a deep copy of a node value. -/
def cloneValue (σ : Store) (n : Node) : Nat × Store :=
  (σ.next, ⟨(σ.next, n) :: σ.entries, σ.next + 1⟩)

/-- Assignment to a reflected property through an id. -/
def setAttrAt (σ : Store) (id : Nat) (name val : String) : Store :=
  match σ.find? id with
  | some n => σ.write id (n.setAttr name val)
  | none => σ

/-- Read of a reflected property through an id. -/
def getAttrAt (σ : Store) (id : Nat) (name : String) : String :=
  match σ.find? id with
  | some n => n.getAttr name
  | none => ""

/-- appendChild through ids, the appended node being carried by
value (sound here: appended nodes are never mutated afterwards). -/
def appendChildAt (σ : Store) (parent child : Nat) : Store :=
  match σ.find? parent, σ.find? child with
  | some p, some c => σ.write parent (p.appendChild c)
  | _, _ => σ

/-- querySelector through an id, returning the value of the found node
(sound here: found images are only read from or cloned). -/
def querySelectorAt (σ : Store) (id : Nat) (tagName : String) : Option Node :=
  (σ.find? id).bind (Node.querySelector tagName)

/-- Every bound id is below the next fresh id. -/
def wf (σ : Store) : Prop := ∀ p ∈ σ.entries, p.1 < σ.next

end Store

/-- The two-source branch of createResponsivePicture over the store
model: create and fill the mobile source, the desktop source and the
fallback image, appending each to the picture. -/
def buildTwoSourcesAt (picture : Nat) (dImg mImg : Node) (alt : String)
    (σ1 : Store) : Nat × Store :=
  let b := σ1.createElement "source"
  let mobileSource := b.1
  let σ2 := (b.2).setAttrAt mobileSource "media" "(max-width: 767px)"
  let σ3 := σ2.setAttrAt mobileSource "srcset" (mImg.getAttr "src")
  let σ4 := σ3.appendChildAt picture mobileSource
  let c := σ4.createElement "source"
  let desktopSource := c.1
  let σ5 := (c.2).setAttrAt desktopSource "media" "(min-width: 768px)"
  let σ6 := σ5.setAttrAt desktopSource "srcset" (dImg.getAttr "src")
  let σ7 := σ6.appendChildAt picture desktopSource
  let d := σ7.createElement "img"
  let img := d.1
  let σ8 := (d.2).setAttrAt img "src" (dImg.getAttr "src")
  let σ9 := σ8.setAttrAt img "alt" (jsOr alt (jsOr (dImg.getAttr "alt") ""))
  let σ10 := σ9.setAttrAt img "loading" "lazy"
  let σ11 := σ10.appendChildAt picture img
  (picture, σ11)

/-- The single-source branch of createResponsivePicture over the store
model: clone the resolved image, overwrite its alt, mark it lazy, and
append it to the picture. -/
def buildCloneAt (picture : Nat) (fb : Node) (alt : String)
    (σ1 : Store) : Nat × Store :=
  let b := σ1.cloneValue fb
  let img := b.1
  let σ2 := (b.2).setAttrAt img "alt"
    (jsOr alt (jsOr ((b.2).getAttrAt img "alt") ""))
  let σ3 := σ2.setAttrAt img "loading" "lazy"
  let σ4 := σ3.appendChildAt picture img
  (picture, σ4)

/-- createResponsivePicture over the store model, from the source:
allocate the picture, query both containers, then either build the two
sources plus the fallback image, or clone the single resolved image,
mutating only freshly allocated ids. -/
def createResponsivePictureAt (desktopPicture mobilePicture : Option Nat)
    (alt : String) (σ0 : Store) : Nat × Store :=
  let a := σ0.createElement "picture"
  let picture := a.1
  let σ1 := a.2
  let desktopImg := desktopPicture.bind (fun id => σ1.querySelectorAt id "img")
  let mobileImg := mobilePicture.bind (fun id => σ1.querySelectorAt id "img")
  let fallbackImg := jsOrOpt desktopImg mobileImg
  match fallbackImg with
  | none => (picture, σ1)
  | some fb =>
      match desktopImg, mobileImg with
      | some dImg, some mImg =>
          if dImg.getAttr "src" ≠ mImg.getAttr "src" then
            buildTwoSourcesAt picture dImg mImg alt σ1
          else
            buildCloneAt picture fb alt σ1
      | _, _ => buildCloneAt picture fb alt σ1

namespace Store

theorem createElement_fst (σ : Store) (t : String) :
    (σ.createElement t).1 = σ.next := rfl

theorem createElement_next (σ : Store) (t : String) :
    ((σ.createElement t).2).next = σ.next + 1 := rfl

theorem cloneValue_fst (σ : Store) (n : Node) :
    (σ.cloneValue n).1 = σ.next := rfl

theorem cloneValue_next (σ : Store) (n : Node) :
    ((σ.cloneValue n).2).next = σ.next + 1 := rfl

theorem setAttrAt_next (σ : Store) (id : Nat) (nm v : String) :
    (σ.setAttrAt id nm v).next = σ.next := by
  unfold Store.setAttrAt
  cases σ.find? id <;> rfl

theorem appendChildAt_next (σ : Store) (p c : Nat) :
    (σ.appendChildAt p c).next = σ.next := by
  unfold Store.appendChildAt
  cases σ.find? p <;> cases σ.find? c <;> rfl

end Store

/-- Lookup skips a rebinding of a different id. -/
theorem lookupId_writeEntries_ne (es : List (Nat × Node)) (id id' : Nat)
    (n : Node) (h : id ≠ id') :
    lookupId (Store.writeEntries es id' n) id = lookupId es id := by
  induction es with
  | nil => rfl
  | cons p rest ih =>
    obtain ⟨k, v⟩ := p
    by_cases hk : k = id'
    · subst hk
      simp [Store.writeEntries, lookupId, Ne.symm h]
    · simp only [Store.writeEntries, if_neg hk]
      by_cases hik : k = id
      · simp [lookupId, hik]
      · simp [lookupId, hik, ih]

/-- A key bound in a well-formed binding list is below the next fresh
id. -/
theorem lookupId_some_key_lt (es : List (Nat × Node)) (N : Nat)
    (hwf : ∀ p ∈ es, p.1 < N) (id : Nat) (n : Node)
    (h : lookupId es id = some n) : id < N := by
  induction es with
  | nil => simp [lookupId] at h
  | cons p rest ih =>
    obtain ⟨k, v⟩ := p
    by_cases hik : k = id
    · subst hik
      exact hwf (k, v) (List.mem_cons_self _ _)
    · simp only [lookupId, if_neg hik] at h
      exact ih (fun q hq => hwf q (List.mem_cons_of_mem _ hq)) h

/-- Frame relation: all ids below K keep their bindings, and the next
fresh id stays at or above K. -/
def FrameGe (K : Nat) (σ σ' : Store) : Prop :=
  K ≤ σ'.next ∧ ∀ id, id < K → σ'.find? id = σ.find? id

theorem frameGe_refl (K : Nat) (σ : Store) (h : K ≤ σ.next) :
    FrameGe K σ σ := ⟨h, fun _ _ => rfl⟩

theorem frameGe_createElement {K : Nat} {σ σ' : Store}
    (h : FrameGe K σ σ') (t : String) :
    FrameGe K σ (σ'.createElement t).2 := by
  refine ⟨Nat.le_succ_of_le h.1, fun id hid => ?_⟩
  have hne : σ'.next ≠ id :=
    (Nat.ne_of_lt (Nat.lt_of_lt_of_le hid h.1)).symm
  simp only [Store.createElement, Store.find?, lookupId, if_neg hne]
  exact h.2 id hid

theorem frameGe_cloneValue {K : Nat} {σ σ' : Store}
    (h : FrameGe K σ σ') (n : Node) :
    FrameGe K σ (σ'.cloneValue n).2 := by
  refine ⟨Nat.le_succ_of_le h.1, fun id hid => ?_⟩
  have hne : σ'.next ≠ id :=
    (Nat.ne_of_lt (Nat.lt_of_lt_of_le hid h.1)).symm
  simp only [Store.cloneValue, Store.find?, lookupId, if_neg hne]
  exact h.2 id hid

theorem frameGe_setAttrAt {K : Nat} {σ σ' : Store}
    (h : FrameGe K σ σ') {id' : Nat} (hid' : K ≤ id') (nm v : String) :
    FrameGe K σ (σ'.setAttrAt id' nm v) := by
  unfold Store.setAttrAt
  cases σ'.find? id' with
  | none => exact h
  | some m =>
    refine ⟨h.1, fun id hid => ?_⟩
    have hne : id ≠ id' := Nat.ne_of_lt (Nat.lt_of_lt_of_le hid hid')
    have hw := lookupId_writeEntries_ne σ'.entries id id' (m.setAttr nm v) hne
    simp only [Store.write, Store.find?] at hw ⊢
    exact hw.trans (h.2 id hid)

theorem frameGe_appendChildAt {K : Nat} {σ σ' : Store}
    (h : FrameGe K σ σ') {p : Nat} (hp : K ≤ p) (c : Nat) :
    FrameGe K σ (σ'.appendChildAt p c) := by
  unfold Store.appendChildAt
  cases σ'.find? p with
  | none => exact h
  | some m =>
    cases σ'.find? c with
    | none => exact h
    | some mc =>
      refine ⟨h.1, fun id hid => ?_⟩
      have hne : id ≠ p := Nat.ne_of_lt (Nat.lt_of_lt_of_le hid hp)
      have hw := lookupId_writeEntries_ne σ'.entries id p (m.appendChild mc) hne
      simp only [Store.write, Store.find?] at hw ⊢
      exact hw.trans (h.2 id hid)

/-- The two-source branch preserves every id below K when the picture
id is at or above K. -/
theorem frameGe_buildTwoSourcesAt {K : Nat} {σ0 σ1 : Store}
    (h : FrameGe K σ0 σ1) {picture : Nat} (hp : K ≤ picture)
    (dImg mImg : Node) (alt : String) :
    FrameGe K σ0 ((buildTwoSourcesAt picture dImg mImg alt σ1).2) := by
  have h1 := h.1
  simp only [buildTwoSourcesAt]
  refine frameGe_appendChildAt (frameGe_setAttrAt (frameGe_setAttrAt
    (frameGe_setAttrAt (frameGe_createElement (frameGe_appendChildAt
    (frameGe_setAttrAt (frameGe_setAttrAt (frameGe_createElement
    (frameGe_appendChildAt (frameGe_setAttrAt (frameGe_setAttrAt
    (frameGe_createElement h _) ?_ _ _) ?_ _ _) hp _) _) ?_ _ _) ?_ _ _)
    hp _) _) ?_ _ _) ?_ _ _) ?_ _ _) hp _
  all_goals
    simp only [Store.createElement_fst, Store.createElement_next,
      Store.cloneValue_fst, Store.cloneValue_next, Store.setAttrAt_next,
      Store.appendChildAt_next]
  all_goals omega

/-- The single-source branch preserves every id below K when the
picture id is at or above K. -/
theorem frameGe_buildCloneAt {K : Nat} {σ0 σ1 : Store}
    (h : FrameGe K σ0 σ1) {picture : Nat} (hp : K ≤ picture)
    (fb : Node) (alt : String) :
    FrameGe K σ0 ((buildCloneAt picture fb alt σ1).2) := by
  have h1 := h.1
  simp only [buildCloneAt]
  refine frameGe_appendChildAt (frameGe_setAttrAt (frameGe_setAttrAt
    (frameGe_cloneValue h _) ?_ _ _) ?_ _ _) hp _
  all_goals
    simp only [Store.createElement_fst, Store.createElement_next,
      Store.cloneValue_fst, Store.cloneValue_next, Store.setAttrAt_next,
      Store.appendChildAt_next]
  all_goals omega

/-- The store version of createResponsivePicture only allocates fresh
ids and writes through fresh ids: every id bound before the call keeps
its binding. -/
theorem createResponsivePictureAt_frame (dp mp : Option Nat) (alt : String)
    (σ : Store) :
    FrameGe σ.next σ ((createResponsivePictureAt dp mp alt σ).2) := by
  have hbase : FrameGe σ.next σ (σ.createElement "picture").2 :=
    frameGe_createElement (frameGe_refl _ _ (Nat.le_refl _)) _
  simp only [createResponsivePictureAt]
  split
  · exact hbase
  · split
    · split
      · exact frameGe_buildTwoSourcesAt hbase (Nat.le_refl _) _ _ _
      · exact frameGe_buildCloneAt hbase (Nat.le_refl _) _ _
    · exact frameGe_buildCloneAt hbase (Nat.le_refl _) _ _

/-- C7: createResponsivePicture mutates none of the nodes that existed
before the call — in particular the extracted containers and their
images are unchanged; the single-source path clones the resolved image
instead of moving or modifying it. -/
theorem c7_inputs_not_mutated (dp mp : Option Nat) (alt : String)
    (σ : Store) (hwf : σ.wf) (id : Nat) (n : Node)
    (hid : σ.find? id = some n) :
    ((createResponsivePictureAt dp mp alt σ).2).find? id = some n := by
  have hlt : id < σ.next := lookupId_some_key_lt σ.entries σ.next hwf id n hid
  exact (((createResponsivePictureAt_frame dp mp alt σ).2) id hlt).trans hid

/-! ### Concrete witnesses -/

/-- A concrete desktop image. -/
def imgD : Node := Node.elem "img" [("src", "desk.jpg"), ("alt", "Dog")] []

/-- A concrete mobile image. -/
def imgM : Node := Node.elem "img" [("src", "mob.jpg"), ("alt", "Cat")] []

/-- A concrete desktop picture container. -/
def picD : Node := Node.elem "picture" [] [imgD]

/-- A concrete mobile picture container. -/
def picM : Node := Node.elem "picture" [] [imgM]

/-- A concrete authored block: desktop image row, empty row, alt row,
link row and target row. -/
def rows5 : List Node :=
  [ Node.elem "div" [] [picD],
    Node.elem "div" [] [],
    Node.elem "div" [] [Node.text "A cat"],
    Node.elem "div" [] [Node.elem "a" [("href", "https://x"), ("title", "Go")] []],
    Node.elem "div" [] [Node.text "_blank"] ]

/-- A concrete store holding one picture container at id 0. -/
def storeW : Store := ⟨[(0, picD)], 1⟩

theorem c1_both_sources_witness :
    createResponsivePicture (some picD) (some picM) "A cat" =
      Node.elem "picture" []
        [ Node.elem "source"
            [("media", "(max-width: 767px)"), ("srcset", "mob.jpg")] [],
          Node.elem "source"
            [("media", "(min-width: 768px)"), ("srcset", "desk.jpg")] [],
          Node.elem "img"
            [("src", "desk.jpg"), ("alt", "A cat"), ("loading", "lazy")] [] ] :=
  c1_both_sources (some picD) (some picM) "A cat" imgD imgM rfl rfl (by decide)

theorem c2_single_source_witness :
    createResponsivePicture (some picD) none "" =
      Node.elem "picture" []
        [Node.elem "img"
          [("src", "desk.jpg"), ("alt", "Dog"), ("loading", "lazy")] []]
    ∧ Node.countElems "img" (createResponsivePicture (some picD) none "") = 1
    ∧ Node.countElems "source" (createResponsivePicture (some picD) none "") = 0 :=
  c2_single_source (some picD) none "" imgD rfl
    (fun _ _ _ hm => by simp at hm) ⟨_, rfl⟩

theorem c3_error_replacement_witness :
    decorate [] = [Node.text errorMessage]
    ∧ Node.countElemsList "img" (decorate []) = 0
    ∧ Node.countElemsList "a" (decorate []) = 0 :=
  c3_error_replacement [] rfl rfl

theorem c4_rel_iff_blank_witness :
    (createLink "https://x" "Go" "_self"
      (Node.elem "picture" [] [])).getAttr? "rel" = none :=
  (c4_rel_iff_blank "https://x" "Go" "_self" (Node.elem "picture" [] [])).2
    (by decide)

theorem c5_wrap_iff_nonempty_href_witness :
    decorate rows5 =
      [Node.elem "a"
        [("href", "https://x"), ("target", "_blank"), ("title", "Go"),
         ("rel", "noopener noreferrer")]
        [Node.elem "picture" []
          [Node.elem "img"
            [("src", "desk.jpg"), ("alt", "A cat"), ("loading", "lazy")] []]]] :=
  ((c5_wrap_iff_nonempty_href rows5
      (fun h => Option.noConfusion h.1)).1
    (Node.elem "a" [("href", "https://x"), ("title", "Go")] []) rfl).1
    (by decide)

theorem c6_link_shape_witness :
    (createLink "https://x" "Go" "_self"
      (Node.elem "picture" [] [])).getAttr? "title" = some "Go"
    ∧ (createLink "https://x" "Go" "_self"
      (Node.elem "picture" [] [])).children = [Node.elem "picture" [] []] :=
  ⟨(c6_link_shape "https://x" "Go" "_self"
      (Node.elem "picture" [] [])).2.2.1 (by decide),
   (c6_link_shape "https://x" "Go" "_self"
      (Node.elem "picture" [] [])).2.2.2.2⟩

theorem c7_inputs_not_mutated_witness :
    ((createResponsivePictureAt (some 0) none "" storeW).2).find? 0 =
      some picD :=
  c7_inputs_not_mutated (some 0) none "" storeW
    (fun p hp => by
      simp only [storeW] at hp
      rw [List.mem_singleton] at hp
      subst hp
      decide)
    0 picD rfl

theorem c8_no_sources_witness :
    createResponsivePicture none none "" = Node.elem "picture" [] [] :=
  c8_no_sources none none "" rfl rfl

theorem c10_empty_container_passes_witness :
    decorate [Node.elem "div" [] [Node.elem "picture" [] []]] =
      [Node.elem "picture" [] []]
    ∧ decorate [Node.elem "div" [] [Node.elem "picture" [] []]] ≠
      [Node.text errorMessage] :=
  (c10_empty_container_passes (Node.elem "div" [] [Node.elem "picture" [] []])
    (Node.elem "picture" [] []) rfl rfl).1
